import Mathlib

/-!
Verification of the todo CRUD server in `src/week-2/02-nodejs/todoServer.js`.

The server keeps todo records in a flat file (`todos.json`): every handler
reads the full list with `getTodosFromFile`, possibly mutates it, and writes
it back with `saveTodoToFile`.  We embed the data model and each Express
handler as a pure Lean function.  Effects are made explicit:

* the backing file is a `FileState` (absent / unparseable / a stored list);
* `fs.writeFileSync` succeeding or throwing is an explicit `writeOk` flag
  threaded into `saveTodoToFile`;
* the `uuidV4()` call in the create handler is an explicit `newId` argument;
* each handler returns a `HandlerResult` bundling the HTTP status, the JSON
  body, the resulting file state and whether `saveTodoToFile` was called.

Request bodies carry possibly-absent fields (`req.body.title` may be
`undefined`), modelled with `Option`; the JavaScript truthiness default
`req.body.completed || false` is modelled by `jsOrFalse` on `Option Bool`.
-/

namespace TodoServer

/-- A todo record as stored in `todos.json`: `{ id, title, description,
completed }`.  `title` and `description` come straight from the request body
and may be absent (`undefined` in JavaScript), hence `Option`. -/
structure Todo where
  id : String
  title : Option String
  description : Option String
  completed : Bool
  deriving Repr, DecidableEq

/-- A request body as the handlers read it: `req.body.title`,
`req.body.description`, `req.body.completed`, each possibly absent. -/
structure ReqBody where
  title : Option String
  description : Option String
  completed : Option Bool
  deriving Repr, DecidableEq

/-- The JavaScript expression `req.body.completed || false`: an absent or
`false` value yields `false`, a supplied `true` stays `true`. -/
def jsOrFalse : Option Bool → Bool
  | some b => b || false
  | none => false

/-- State of the backing file `todos.json`: missing/unreadable, present but
not valid JSON, or a parsed list of records. -/
inductive FileState where
  | absent
  | corrupt
  | stored (todos : List Todo)
  deriving Repr, DecidableEq

/-- Embedding of `saveTodoToFile`: `fs.writeFileSync` either succeeds
(`writeOk = true`, the file now holds exactly `todos`, return `true`) or
throws (`writeOk = false`, caught, logged, return `false`).  It returns a
boolean instead of raising; totality of this function is the embedding of
"does not raise". -/
def saveTodoToFile (writeOk : Bool) (todos : List Todo) (file : FileState) :
    Bool × FileState :=
  if writeOk then (true, FileState.stored todos) else (false, file)

/-- Embedding of `getTodosFromFile`: `fs.readFileSync` + `JSON.parse`; any
failure (missing file, unreadable, unparseable) is caught, logged, and an
empty array is returned. -/
def getTodosFromFile : FileState → List Todo
  | FileState.stored todos => todos
  | _ => []

/-- JSON response bodies the handlers produce. -/
inductive Body where
  | todoList (todos : List Todo)
  | todoItem (t : Todo)
  | createdId (id : String)
  | message (m : String)
  | empty
  deriving Repr, DecidableEq

/-- Outcome of one handler run: HTTP status, response body, resulting file
state, and whether `saveTodoToFile` was invoked during the run. -/
structure HandlerResult where
  status : Nat
  body : Body
  file : FileState
  saveInvoked : Bool
  deriving Repr, DecidableEq

/-- Embedding of `app.get('/todos')`. -/
def app_get_todos (file : FileState) : HandlerResult :=
  { status := 200, body := Body.todoList (getTodosFromFile file),
    file := file, saveInvoked := false }

/-- Embedding of `app.get('/todos/:id')`: `todos.find(t => t.id ===
req.params.id)`, 404 when absent, 200 with the record when found. -/
def app_get_todo_by_id (file : FileState) (id : String) : HandlerResult :=
  match (getTodosFromFile file).find? (fun t => t.id == id) with
  | none =>
    { status := 404, body := Body.message "Todo not found",
      file := file, saveInvoked := false }
  | some t =>
    { status := 200, body := Body.todoItem t,
      file := file, saveInvoked := false }

/-- Embedding of `app.post('/todos')`: build the new record (id from
`uuidV4()`, passed in as `newId`; `completed: req.body.completed || false`),
push it onto the loaded list, save, and answer 201 `{id}` or 500. -/
def app_post_todos (file : FileState) (body : ReqBody) (newId : String)
    (writeOk : Bool) : HandlerResult :=
  let newTodo : Todo :=
    { id := newId, title := body.title, description := body.description,
      completed := jsOrFalse body.completed }
  let todos := getTodosFromFile file ++ [newTodo]
  let saved := saveTodoToFile writeOk todos file
  if saved.1 then
    { status := 201, body := Body.createdId newTodo.id,
      file := saved.2, saveInvoked := true }
  else
    { status := 500, body := Body.message "Failed to save todo",
      file := saved.2, saveInvoked := true }

/-- The in-place mutation the update handler performs on the found record:
`todo.title = req.body.title; todo.description = req.body.description;
todo.completed = req.body.completed || false` (the `id` field is untouched). -/
def updatedTodo (t : Todo) (body : ReqBody) : Todo :=
  { t with
    title := body.title
    description := body.description
    completed := jsOrFalse body.completed }

/-- Replace the first element satisfying `p` by its image under `f`, leaving
everything else in place: the effect on the list of mutating the object
returned by `todos.find(...)`. -/
def updateFirst (p : Todo → Bool) (f : Todo → Todo) : List Todo → List Todo
  | [] => []
  | t :: ts => if p t then f t :: ts else t :: updateFirst p f ts

/-- Embedding of `app.put('/todos/:id')`: find the record, 404 when absent;
otherwise overwrite its three fields in place, save the list, and answer
200 with the updated record or 500. -/
def app_put_todos (file : FileState) (id : String) (body : ReqBody)
    (writeOk : Bool) : HandlerResult :=
  let todos := getTodosFromFile file
  match todos.find? (fun t => t.id == id) with
  | none =>
    { status := 404, body := Body.message "Todo not found",
      file := file, saveInvoked := false }
  | some t =>
    let todos' := updateFirst (fun u => u.id == id)
      (fun u => updatedTodo u body) todos
    let saved := saveTodoToFile writeOk todos' file
    if saved.1 then
      { status := 200, body := Body.todoItem (updatedTodo t body),
        file := saved.2, saveInvoked := true }
    else
      { status := 500, body := Body.message "Failed to save todo",
        file := saved.2, saveInvoked := true }

/-- Remove the first element satisfying `p`: the effect of
`todos.splice(todos.indexOf(todo), 1)` where `todo` is the object returned
by `todos.find(...)`. -/
def removeFirst (p : Todo → Bool) : List Todo → List Todo
  | [] => []
  | t :: ts => if p t then ts else t :: removeFirst p ts

/-- Embedding of `app.delete('/todos/:id')`: find the record, 404 when
absent; otherwise splice it out, save the list, and answer 200
`{message: "Todo deleted"}` or 500. -/
def app_delete_todos (file : FileState) (id : String) (writeOk : Bool) :
    HandlerResult :=
  let todos := getTodosFromFile file
  match todos.find? (fun t => t.id == id) with
  | none =>
    { status := 404, body := Body.message "Todo not found",
      file := file, saveInvoked := false }
  | some _ =>
    let todos' := removeFirst (fun u => u.id == id) todos
    let saved := saveTodoToFile writeOk todos' file
    if saved.1 then
      { status := 200, body := Body.message "Todo deleted",
        file := saved.2, saveInvoked := true }
    else
      { status := 500, body := Body.message "Failed to save todo",
        file := saved.2, saveInvoked := true }

/-- Embedding of `app.all("**")`: any unmatched route gets 404 with an empty
body (`res.status(404).send()`), touching nothing. -/
def app_all_fallback (file : FileState) : HandlerResult :=
  { status := 404, body := Body.empty, file := file, saveInvoked := false }

/-- The route a request dispatches to. -/
inductive RouteTarget where
  | getAll
  | getById (id : String)
  | create
  | update (id : String)
  | remove (id : String)
  | fallback
  deriving Repr, DecidableEq

/-- Express routing over method and path segments: the five registered
routes (`GET /todos`, `GET /todos/:id`, `POST /todos`, `PUT /todos/:id`,
`DELETE /todos/:id`) in registration order, then the `app.all("**")`
catch-all. -/
def route (method : String) (segments : List String) : RouteTarget :=
  match method, segments with
  | "GET", ["todos"] => RouteTarget.getAll
  | "GET", ["todos", id] => RouteTarget.getById id
  | "POST", ["todos"] => RouteTarget.create
  | "PUT", ["todos", id] => RouteTarget.update id
  | "DELETE", ["todos", id] => RouteTarget.remove id
  | _, _ => RouteTarget.fallback

/-- One request handled to completion: dispatch to the handler for the
matched route.  `body`, `newId` and `writeOk` are only consulted by the
handlers that use them. -/
def step (target : RouteTarget) (body : ReqBody) (newId : String)
    (writeOk : Bool) (file : FileState) : HandlerResult :=
  match target with
  | RouteTarget.getAll => app_get_todos file
  | RouteTarget.getById id => app_get_todo_by_id file id
  | RouteTarget.create => app_post_todos file body newId writeOk
  | RouteTarget.update id => app_put_todos file id body writeOk
  | RouteTarget.remove id => app_delete_todos file id writeOk
  | RouteTarget.fallback => app_all_fallback file

/-- The persisted-list invariant: all record ids are pairwise distinct. -/
def uniqueIds (todos : List Todo) : Prop := (todos.map Todo.id).Nodup

instance (todos : List Todo) : Decidable (uniqueIds todos) :=
  inferInstanceAs (Decidable ((todos.map Todo.id).Nodup))

/-- A concrete stored record, completed, used to instantiate theorems. -/
def sampleTodo : Todo :=
  { id := "a1", title := some "Buy groceries",
    description := some "I should buy groceries", completed := true }

/-- A concrete update/create body that omits `completed`. -/
def sampleBody : ReqBody :=
  { title := some "New title", description := some "New description",
    completed := none }

/-- A concrete backing file holding exactly `sampleTodo`. -/
def sampleFile : FileState := FileState.stored [sampleTodo]

theorem updatedTodo_id (t : Todo) (body : ReqBody) :
    (updatedTodo t body).id = t.id := rfl

theorem updateFirst_map_id (id : String) (body : ReqBody) (ts : List Todo) :
    (updateFirst (fun u => u.id == id) (fun u => updatedTodo u body) ts).map
      Todo.id = ts.map Todo.id := by
  induction ts with
  | nil => rfl
  | cons t ts ih =>
    simp only [updateFirst]
    cases h : (t.id == id)
    · simp [h, ih]
    · simp [h, updatedTodo_id]

theorem removeFirst_sublist (p : Todo → Bool) (ts : List Todo) :
    List.Sublist (removeFirst p ts) ts := by
  induction ts with
  | nil => simp [removeFirst]
  | cons t ts ih =>
    simp only [removeFirst]
    by_cases h : p t = true
    · rw [if_pos h]
      exact List.sublist_cons_self t ts
    · rw [if_neg h]
      exact List.Sublist.cons₂ t ih

theorem find?_removeFirst_eq_none (id : String) (ts : List Todo)
    (h : (ts.map Todo.id).Nodup) :
    (removeFirst (fun u => u.id == id) ts).find? (fun u => u.id == id) =
      none := by
  induction ts with
  | nil => rfl
  | cons t ts ih =>
    have h' : t.id ∉ ts.map Todo.id ∧ (ts.map Todo.id).Nodup :=
      List.nodup_cons.mp (by simpa using h)
    simp only [removeFirst]
    by_cases htb : (t.id == id) = true
    · rw [if_pos htb]
      rw [List.find?_eq_none]
      intro u hu hpu
      have hid : u.id = id := by simpa using hpu
      have htid : t.id = id := by simpa using htb
      exact h'.1 (htid ▸ hid ▸ List.mem_map_of_mem Todo.id hu)
    · rw [if_neg htb]
      rw [List.find?_cons_of_neg (p := fun u => u.id == id)
        (removeFirst (fun u => u.id == id) ts) htb]
      exact ih h'.2

theorem find?_updateFirst (id : String) (body : ReqBody) (ts : List Todo)
    (t : Todo) (h : ts.find? (fun u => u.id == id) = some t) :
    (updateFirst (fun u => u.id == id) (fun u => updatedTodo u body)
      ts).find? (fun u => u.id == id) = some (updatedTodo t body) := by
  induction ts with
  | nil => simp [List.find?] at h
  | cons a ts ih =>
    simp only [updateFirst]
    cases hab : (a.id == id)
    · rw [List.find?_cons_of_neg _ (by simp [hab])] at h
      rw [if_neg (by simp [hab])]
      rw [List.find?_cons_of_neg _ (by simp [hab])]
      exact ih h
    · rw [List.find?_cons_of_pos _ (by simp [hab])] at h
      rw [if_pos (by simp [hab])]
      rw [List.find?_cons_of_pos _
        (by simpa [updatedTodo_id] using hab)]
      simp_all

theorem updateFirst_append (id : String) (f : Todo → Todo) (l₁ : List Todo)
    (t : Todo) (l₂ : List Todo) (hl : ∀ u ∈ l₁, (u.id == id) = false)
    (ht : (t.id == id) = true) :
    updateFirst (fun u => u.id == id) f (l₁ ++ t :: l₂) = l₁ ++ f t :: l₂ := by
  induction l₁ with
  | nil => simp [updateFirst, ht]
  | cons a l ih =>
    have ha := hl a (List.mem_cons_self a l)
    simp only [List.cons_append, updateFirst, ha]
    simp [ih (fun u hu => hl u (List.mem_cons_of_mem a hu))]

/-- C3: saving a list of records and then loading (as across a process
restart) reproduces exactly the saved records: whenever `saveTodoToFile`
reports success, `getTodosFromFile` on the resulting file returns the list
that was saved. -/
theorem save_then_load_roundtrip (writeOk : Bool) (todos : List Todo)
    (file : FileState) (h : (saveTodoToFile writeOk todos file).1 = true) :
    getTodosFromFile (saveTodoToFile writeOk todos file).2 = todos := by
  cases writeOk
  · simp [saveTodoToFile] at h
  · simp [saveTodoToFile, getTodosFromFile]

/-- C3 witness: a successful save of a one-record list reloads as the same
list. -/
theorem save_then_load_roundtrip_witness :
    (saveTodoToFile true [sampleTodo] FileState.absent).1 = true ∧
    getTodosFromFile (saveTodoToFile true [sampleTodo] FileState.absent).2 =
      [sampleTodo] :=
  ⟨by decide,
    save_then_load_roundtrip true [sampleTodo] FileState.absent (by decide)⟩

/-- C4: loading never surfaces an error: a missing/unreadable file and an
unparseable file both load as the empty list (the failure is only logged),
so every handler proceeds with a well-defined list. -/
theorem load_fails_soft :
    getTodosFromFile FileState.absent = [] ∧
    getTodosFromFile FileState.corrupt = [] :=
  ⟨rfl, rfl⟩

/-- C5: `saveTodoToFile` never raises — it is a total function into `Bool`
(its result equals the write-success flag) and leaves the file untouched on
failure — and whenever it reports failure during a create, update, or
delete, the handler responds 500 with body `{message: "Failed to save
todo"}`. -/
theorem save_failure_maps_to_500 (file : FileState) (id : String)
    (body : ReqBody) (newId : String) (t : Todo)
    (hfind : (getTodosFromFile file).find? (fun u => u.id == id) = some t) :
    (∀ w todos f, (saveTodoToFile w todos f).1 = w) ∧
    (∀ todos, saveTodoToFile false todos file = (false, file)) ∧
    (app_post_todos file body newId false).status = 500 ∧
    (app_post_todos file body newId false).body =
      Body.message "Failed to save todo" ∧
    (app_put_todos file id body false).status = 500 ∧
    (app_put_todos file id body false).body =
      Body.message "Failed to save todo" ∧
    (app_delete_todos file id false).status = 500 ∧
    (app_delete_todos file id false).body =
      Body.message "Failed to save todo" := by
  refine ⟨fun w todos f => by cases w <;> simp [saveTodoToFile],
    fun todos => by simp [saveTodoToFile], ?_, ?_, ?_, ?_, ?_, ?_⟩ <;>
    simp [app_post_todos, app_put_todos, app_delete_todos, saveTodoToFile,
      hfind]

/-- C5 witness: with the sample record present, create, update and delete
all answer 500 `{message: "Failed to save todo"}` when the write fails. -/
theorem save_failure_maps_to_500_witness :
    (getTodosFromFile sampleFile).find? (fun u => u.id == "a1") =
      some sampleTodo ∧
    (app_post_todos sampleFile sampleBody "b2" false).status = 500 ∧
    (app_put_todos sampleFile "a1" sampleBody false).status = 500 ∧
    (app_delete_todos sampleFile "a1" false).status = 500 :=
  ⟨by decide,
    (save_failure_maps_to_500 sampleFile "a1" sampleBody "b2" sampleTodo
      (by decide)).2.2.1,
    (save_failure_maps_to_500 sampleFile "a1" sampleBody "b2" sampleTodo
      (by decide)).2.2.2.2.1,
    (save_failure_maps_to_500 sampleFile "a1" sampleBody "b2" sampleTodo
      (by decide)).2.2.2.2.2.2.1⟩

/-- C9: every request whose method and path segments match none of the five
registered todo routes is dispatched to the catch-all and receives 404 with
an empty body, leaving the file untouched. -/
theorem unmatched_route_404 (method : String) (segments : List String)
    (body : ReqBody) (newId : String) (writeOk : Bool) (file : FileState)
    (h : route method segments = RouteTarget.fallback) :
    step (route method segments) body newId writeOk file =
      { status := 404, body := Body.empty, file := file,
        saveInvoked := false } := by
  rw [h]; rfl

/-- C9 witness: `PATCH /unknown` is unmatched and answers 404 with an empty
body. -/
theorem unmatched_route_404_witness :
    route "PATCH" ["unknown"] = RouteTarget.fallback ∧
    step (route "PATCH" ["unknown"]) sampleBody "b2" true sampleFile =
      { status := 404, body := Body.empty, file := sampleFile,
        saveInvoked := false } :=
  ⟨by decide,
    unmatched_route_404 "PATCH" ["unknown"] sampleBody "b2" true sampleFile
      (by decide)⟩

/-- C10: when `PUT /todos/:id` or `DELETE /todos/:id` answers 404 because no
record has the given id, `saveTodoToFile` is never invoked and the backing
file is unchanged. -/
theorem notfound_is_atomic (file : FileState) (id : String) (body : ReqBody)
    (writeOk : Bool)
    (hnone : (getTodosFromFile file).find? (fun u => u.id == id) = none) :
    app_put_todos file id body writeOk =
      { status := 404, body := Body.message "Todo not found", file := file,
        saveInvoked := false } ∧
    app_delete_todos file id writeOk =
      { status := 404, body := Body.message "Todo not found", file := file,
        saveInvoked := false } := by
  constructor <;> simp [app_put_todos, app_delete_todos, hnone]

/-- C10 witness: updating or deleting a missing id on the sample file is a
pure 404. -/
theorem notfound_is_atomic_witness :
    (getTodosFromFile sampleFile).find? (fun u => u.id == "zzz") = none ∧
    app_put_todos sampleFile "zzz" sampleBody true =
      { status := 404, body := Body.message "Todo not found",
        file := sampleFile, saveInvoked := false } ∧
    app_delete_todos sampleFile "zzz" true =
      { status := 404, body := Body.message "Todo not found",
        file := sampleFile, saveInvoked := false } :=
  ⟨by decide,
    (notfound_is_atomic sampleFile "zzz" sampleBody true (by decide)).1,
    (notfound_is_atomic sampleFile "zzz" sampleBody true (by decide)).2⟩


theorem app_post_todos_ok (file : FileState) (body : ReqBody)
    (newId : String) :
    app_post_todos file body newId true =
      { status := 201, body := Body.createdId newId,
        file := FileState.stored (getTodosFromFile file ++
          [⟨newId, body.title, body.description, jsOrFalse body.completed⟩]),
        saveInvoked := true } := by
  simp [app_post_todos, saveTodoToFile]

theorem app_put_todos_of_some (file : FileState) (id : String)
    (body : ReqBody) (t : Todo)
    (h : (getTodosFromFile file).find? (fun u => u.id == id) = some t) :
    app_put_todos file id body true =
      { status := 200, body := Body.todoItem (updatedTodo t body),
        file := FileState.stored (updateFirst (fun u => u.id == id)
          (fun u => updatedTodo u body) (getTodosFromFile file)),
        saveInvoked := true } := by
  simp [app_put_todos, h, saveTodoToFile]

theorem app_put_todos_fail_of_some (file : FileState) (id : String)
    (body : ReqBody) (t : Todo)
    (h : (getTodosFromFile file).find? (fun u => u.id == id) = some t) :
    app_put_todos file id body false =
      { status := 500, body := Body.message "Failed to save todo",
        file := file, saveInvoked := true } := by
  simp [app_put_todos, h, saveTodoToFile]

theorem app_delete_todos_of_some (file : FileState) (id : String) (t : Todo)
    (h : (getTodosFromFile file).find? (fun u => u.id == id) = some t) :
    app_delete_todos file id true =
      { status := 200, body := Body.message "Todo deleted",
        file := FileState.stored (removeFirst (fun u => u.id == id)
          (getTodosFromFile file)),
        saveInvoked := true } := by
  simp [app_delete_todos, h, saveTodoToFile]

theorem app_delete_todos_fail_of_some (file : FileState) (id : String)
    (t : Todo)
    (h : (getTodosFromFile file).find? (fun u => u.id == id) = some t) :
    app_delete_todos file id false =
      { status := 500, body := Body.message "Failed to save todo",
        file := file, saveInvoked := true } := by
  simp [app_delete_todos, h, saveTodoToFile]

theorem app_get_todo_by_id_of_none (l : List Todo) (id : String)
    (h : l.find? (fun u => u.id == id) = none) :
    app_get_todo_by_id (FileState.stored l) id =
      { status := 404, body := Body.message "Todo not found",
        file := FileState.stored l, saveInvoked := false } := by
  simp [app_get_todo_by_id, getTodosFromFile, h]

theorem app_get_todo_by_id_of_some (l : List Todo) (id : String) (t : Todo)
    (h : l.find? (fun u => u.id == id) = some t) :
    app_get_todo_by_id (FileState.stored l) id =
      { status := 200, body := Body.todoItem t,
        file := FileState.stored l, saveInvoked := false } := by
  simp [app_get_todo_by_id, getTodosFromFile, h]

theorem app_put_todos_of_none (file : FileState) (id : String)
    (body : ReqBody) (writeOk : Bool)
    (h : (getTodosFromFile file).find? (fun u => u.id == id) = none) :
    app_put_todos file id body writeOk =
      { status := 404, body := Body.message "Todo not found",
        file := file, saveInvoked := false } := by
  simp [app_put_todos, h]

theorem app_delete_todos_of_none (file : FileState) (id : String)
    (writeOk : Bool)
    (h : (getTodosFromFile file).find? (fun u => u.id == id) = none) :
    app_delete_todos file id writeOk =
      { status := 404, body := Body.message "Todo not found",
        file := file, saveInvoked := false } := by
  simp [app_delete_todos, h]

theorem app_post_todos_fail (file : FileState) (body : ReqBody)
    (newId : String) :
    app_post_todos file body newId false =
      { status := 500, body := Body.message "Failed to save todo",
        file := file, saveInvoked := true } := by
  simp [app_post_todos, saveTodoToFile]

/-- C1: creating a todo and then fetching it by the returned id yields 200
with a record whose title, description and completed are exactly those
submitted, `completed` going through the code's defaulting rule
(`jsOrFalse`, which maps an omitted or falsy value to `false`).  The
hypothesis is that the generated uuid does not collide with an existing id. -/
theorem create_then_get_roundtrip (file : FileState) (body : ReqBody)
    (newId : String)
    (hfresh : newId ∉ (getTodosFromFile file).map Todo.id) :
    (app_post_todos file body newId true).status = 201 ∧
    (app_post_todos file body newId true).body = Body.createdId newId ∧
    app_get_todo_by_id (app_post_todos file body newId true).file newId =
      { status := 200,
        body := Body.todoItem
          ⟨newId, body.title, body.description, jsOrFalse body.completed⟩,
        file := (app_post_todos file body newId true).file,
        saveInvoked := false } ∧
    jsOrFalse none = false ∧ jsOrFalse (some false) = false := by
  have hnone : (getTodosFromFile file).find? (fun u => u.id == newId) =
      none := by
    rw [List.find?_eq_none]
    intro u hu hpu
    have hid : u.id = newId := by simpa using hpu
    exact hfresh (hid ▸ List.mem_map_of_mem Todo.id hu)
  have hfind : (getTodosFromFile file ++
      [(⟨newId, body.title, body.description, jsOrFalse body.completed⟩ :
        Todo)]).find? (fun u => u.id == newId) =
      some ⟨newId, body.title, body.description, jsOrFalse body.completed⟩ := by
    rw [List.find?_append, hnone]
    simp
  refine ⟨?_, ?_, ?_, rfl, rfl⟩ <;>
    simp [app_post_todos_ok, app_get_todo_by_id_of_some _ newId _ hfind]

/-- C1 witness: posting `sampleBody` over `sampleFile` with fresh id "b2"
and fetching "b2" returns the submitted fields with `completed = false`. -/
theorem create_then_get_roundtrip_witness :
    "b2" ∉ (getTodosFromFile sampleFile).map Todo.id ∧
    ((app_post_todos sampleFile sampleBody "b2" true).status = 201 ∧
    (app_post_todos sampleFile sampleBody "b2" true).body =
      Body.createdId "b2" ∧
    app_get_todo_by_id (app_post_todos sampleFile sampleBody "b2" true).file
        "b2" =
      { status := 200,
        body := Body.todoItem ⟨"b2", sampleBody.title, sampleBody.description,
          jsOrFalse sampleBody.completed⟩,
        file := (app_post_todos sampleFile sampleBody "b2" true).file,
        saveInvoked := false } ∧
    jsOrFalse none = false ∧ jsOrFalse (some false) = false) :=
  ⟨by decide,
    create_then_get_roundtrip sampleFile sampleBody "b2" (by decide)⟩

/-- C2: `PUT /todos/:id` is a whole-record replace of title, description and
completed.  When the body omits `completed` or supplies the falsy `false`,
the stored record's `completed` becomes `false` even if it was previously
`true` (the record `t` is arbitrary), and the same defaulting is applied on
create: the record appended by `POST /todos` for such a body also has
`completed = false`. -/
theorem update_replaces_fully (file : FileState) (id : String)
    (body : ReqBody) (newId : String) (t : Todo)
    (hfind : (getTodosFromFile file).find? (fun u => u.id == id) = some t)
    (hfalsy : body.completed = none ∨ body.completed = some false) :
    (app_put_todos file id body true).status = 200 ∧
    (app_put_todos file id body true).body =
      Body.todoItem ⟨t.id, body.title, body.description, false⟩ ∧
    app_get_todo_by_id (app_put_todos file id body true).file id =
      { status := 200,
        body := Body.todoItem ⟨t.id, body.title, body.description, false⟩,
        file := (app_put_todos file id body true).file,
        saveInvoked := false } ∧
    (app_post_todos file body newId true).file =
      FileState.stored (getTodosFromFile file ++
        [⟨newId, body.title, body.description, false⟩]) := by
  have hjs : jsOrFalse body.completed = false := by
    rcases hfalsy with h | h <;> simp [h, jsOrFalse]
  have hupd : updatedTodo t body =
      ⟨t.id, body.title, body.description, false⟩ := by
    simp [updatedTodo, hjs]
  refine ⟨?_, ?_, ?_, ?_⟩ <;>
    simp [app_put_todos_of_some file id body t hfind, app_post_todos_ok,
      app_get_todo_by_id_of_some _ id (updatedTodo t body)
        (find?_updateFirst id body _ t hfind), hupd, hjs]

/-- C2 witness: `sampleTodo` has `completed = true`; updating it with
`sampleBody` (no `completed` field) stores `completed = false`, and creating
from the same body also stores `completed = false`. -/
theorem update_replaces_fully_witness :
    (getTodosFromFile sampleFile).find? (fun u => u.id == "a1") =
      some sampleTodo ∧
    (sampleBody.completed = none ∨ sampleBody.completed = some false) ∧
    (app_put_todos sampleFile "a1" sampleBody true).body =
      Body.todoItem ⟨sampleTodo.id, sampleBody.title,
        sampleBody.description, false⟩ ∧
    (app_post_todos sampleFile sampleBody "b2" true).file =
      FileState.stored (getTodosFromFile sampleFile ++
        [⟨"b2", sampleBody.title, sampleBody.description, false⟩]) :=
  ⟨by decide, Or.inl rfl,
    (update_replaces_fully sampleFile "a1" sampleBody "b2" sampleTodo
      (by decide) (Or.inl rfl)).2.1,
    (update_replaces_fully sampleFile "a1" sampleBody "b2" sampleTodo
      (by decide) (Or.inl rfl)).2.2.2⟩

/-- C6: after a successful `DELETE /todos/:id` (200 with
`{message: "Todo deleted"}`, record removed from the persisted list), a
subsequent `GET /todos/:id` for the same id answers 404 with
`{message: "Todo not found"}`.  The unique-ids invariant of the persisted
list guarantees no second record with the same id survives the delete. -/
theorem delete_then_get_404 (file : FileState) (id : String) (t : Todo)
    (hnodup : uniqueIds (getTodosFromFile file))
    (hfind : (getTodosFromFile file).find? (fun u => u.id == id) = some t) :
    (app_delete_todos file id true).status = 200 ∧
    (app_delete_todos file id true).body = Body.message "Todo deleted" ∧
    (app_delete_todos file id true).file =
      FileState.stored (removeFirst (fun u => u.id == id)
        (getTodosFromFile file)) ∧
    app_get_todo_by_id (app_delete_todos file id true).file id =
      { status := 404, body := Body.message "Todo not found",
        file := (app_delete_todos file id true).file,
        saveInvoked := false } := by
  refine ⟨?_, ?_, ?_, ?_⟩ <;>
    simp [app_delete_todos_of_some file id t hfind,
      app_get_todo_by_id_of_none _ id
        (find?_removeFirst_eq_none id _ hnodup)]

/-- C6 witness: deleting "a1" from the sample file answers 200 "Todo
deleted" and a following get of "a1" answers 404 "Todo not found". -/
theorem delete_then_get_404_witness :
    uniqueIds (getTodosFromFile sampleFile) ∧
    (getTodosFromFile sampleFile).find? (fun u => u.id == "a1") =
      some sampleTodo ∧
    (app_delete_todos sampleFile "a1" true).status = 200 ∧
    app_get_todo_by_id (app_delete_todos sampleFile "a1" true).file "a1" =
      { status := 404, body := Body.message "Todo not found",
        file := (app_delete_todos sampleFile "a1" true).file,
        saveInvoked := false } :=
  ⟨by decide, by decide,
    (delete_then_get_404 sampleFile "a1" sampleTodo (by decide)
      (by decide)).1,
    (delete_then_get_404 sampleFile "a1" sampleTodo (by decide)
      (by decide)).2.2.2⟩

/-- C7: ids are pairwise distinct.  Ids are only assigned by the create
handler (from `uuidV4()`, modelled as the `newId` argument: never
client-supplied, never derived from record content); assuming the generated
id is fresh — the uuid library's negligible-collision guarantee — every one
of the six routes preserves the invariant that the persisted list's ids are
pairwise distinct. -/
theorem ids_pairwise_distinct (target : RouteTarget) (body : ReqBody)
    (newId : String) (writeOk : Bool) (file : FileState)
    (hinv : uniqueIds (getTodosFromFile file))
    (hfresh : newId ∉ (getTodosFromFile file).map Todo.id) :
    uniqueIds
      (getTodosFromFile (step target body newId writeOk file).file) := by
  cases target with
  | getAll => exact hinv
  | getById id =>
    show uniqueIds (getTodosFromFile (app_get_todo_by_id file id).file)
    rcases h : (getTodosFromFile file).find? (fun u => u.id == id) with _ | t
    · have hf : (app_get_todo_by_id file id).file = file := by
        simp [app_get_todo_by_id, h]
      rw [hf]
      exact hinv
    · have hf : (app_get_todo_by_id file id).file = file := by
        simp [app_get_todo_by_id, h]
      rw [hf]
      exact hinv
  | create =>
    show uniqueIds
      (getTodosFromFile (app_post_todos file body newId writeOk).file)
    cases writeOk with
    | false =>
      rw [app_post_todos_fail]
      exact hinv
    | true =>
      rw [app_post_todos_ok]
      show ((getTodosFromFile file ++
        [(⟨newId, body.title, body.description, jsOrFalse body.completed⟩ :
          Todo)]).map Todo.id).Nodup
      rw [List.map_append, List.map_cons, List.map_nil,
        ← List.concat_eq_append]
      exact List.Nodup.concat hfresh hinv
  | update id =>
    show uniqueIds
      (getTodosFromFile (app_put_todos file id body writeOk).file)
    rcases h : (getTodosFromFile file).find? (fun u => u.id == id) with _ | t
    · rw [app_put_todos_of_none file id body writeOk h]
      exact hinv
    · cases writeOk with
      | false =>
        rw [app_put_todos_fail_of_some file id body t h]
        exact hinv
      | true =>
        rw [app_put_todos_of_some file id body t h]
        show ((updateFirst (fun u => u.id == id)
          (fun u => updatedTodo u body) (getTodosFromFile file)).map
            Todo.id).Nodup
        rw [updateFirst_map_id]
        exact hinv
  | remove id =>
    show uniqueIds
      (getTodosFromFile (app_delete_todos file id writeOk).file)
    rcases h : (getTodosFromFile file).find? (fun u => u.id == id) with _ | t
    · rw [app_delete_todos_of_none file id writeOk h]
      exact hinv
    · cases writeOk with
      | false =>
        rw [app_delete_todos_fail_of_some file id t h]
        exact hinv
      | true =>
        rw [app_delete_todos_of_some file id t h]
        exact List.Nodup.sublist
          ((removeFirst_sublist (fun u => u.id == id) _).map Todo.id) hinv
  | fallback => exact hinv

/-- C7 witness: creating with fresh id "b2" over the sample file keeps the
persisted ids pairwise distinct. -/
theorem ids_pairwise_distinct_witness :
    uniqueIds (getTodosFromFile sampleFile) ∧
    "b2" ∉ (getTodosFromFile sampleFile).map Todo.id ∧
    uniqueIds (getTodosFromFile
      (step RouteTarget.create sampleBody "b2" true sampleFile).file) :=
  ⟨by decide, by decide,
    ids_pairwise_distinct RouteTarget.create sampleBody "b2" true sampleFile
      (by decide) (by decide)⟩

/-- C8: a successful `PUT /todos/:id` changes only the matched record's
three writable fields: writing the loaded list as `l₁ ++ t :: l₂` with `t`
the first record matching the id, the saved list is
`l₁ ++ updatedTodo t body :: l₂` — every other record unchanged in content
and position — and the updated record keeps the id of the record it
replaces. -/
theorem update_frame_effect (file : FileState) (id : String) (body : ReqBody)
    (l₁ l₂ : List Todo) (t : Todo)
    (hts : getTodosFromFile file = l₁ ++ t :: l₂)
    (hl : ∀ u ∈ l₁, (u.id == id) = false)
    (ht : (t.id == id) = true) :
    app_put_todos file id body true =
      { status := 200, body := Body.todoItem (updatedTodo t body),
        file := FileState.stored (l₁ ++ updatedTodo t body :: l₂),
        saveInvoked := true } ∧
    (updatedTodo t body).id = t.id := by
  have hl' : l₁.find? (fun u => u.id == id) = none :=
    List.find?_eq_none.mpr (fun u hu => by simp [hl u hu])
  have hfind : (getTodosFromFile file).find? (fun u => u.id == id) =
      some t := by
    rw [hts, List.find?_append, hl', List.find?_cons_of_pos l₂ ht]
    rfl
  refine ⟨?_, rfl⟩
  rw [app_put_todos_of_some file id body t hfind, hts,
    updateFirst_append id (fun u => updatedTodo u body) l₁ t l₂ hl ht]

/-- C8 witness: updating the only record of the sample file replaces its
fields in place, keeps its id, and touches nothing else. -/
theorem update_frame_effect_witness :
    getTodosFromFile sampleFile = [] ++ sampleTodo :: [] ∧
    (∀ u ∈ ([] : List Todo), (u.id == "a1") = false) ∧
    (sampleTodo.id == "a1") = true ∧
    (app_put_todos sampleFile "a1" sampleBody true =
      { status := 200,
        body := Body.todoItem (updatedTodo sampleTodo sampleBody),
        file := FileState.stored
          ([] ++ updatedTodo sampleTodo sampleBody :: []),
        saveInvoked := true } ∧
    (updatedTodo sampleTodo sampleBody).id = sampleTodo.id) :=
  ⟨by decide, by simp, by decide,
    update_frame_effect sampleFile "a1" sampleBody [] [] sampleTodo
      (by decide) (by simp) (by decide)⟩

end TodoServer
